import Mathlib

/-!
# Verification of the llamactl instance supervisor

A shallow embedding of `server/pkg/instance.go` (package `llamactl`): the
`Instance` state record, the operations `NewInstance`, `SetOptions`,
`GetProxy`, `Start`, `Stop`, `GetLogs`, the monitor/restart logic
(`monitorProcess`, `handleRestart`, `validateRestartConditions`) and the
option sanitisation of `UnmarshalJSON`, together with a trace semantics for
sequences of operator Start/Stop calls, monitored child exits and
restart-timer firings.

External effects (file system, pipes, process spawning, wall-clock
timestamps, the `url.Parse` stdlib call) are modelled by explicit outcome
parameters (`StartEnv`, timestamp strings, the `parseOk` argument of
`GetProxy`); the state fields mirror the Go struct fields.
-/

namespace Llamactl

/-- Modelled from the spec: the `LlamaServerOptions` struct is declared in a
file outside the sources at hand; per the spec's data model the instance
options carry the "host+port where the child will listen", read by
`GetProxy` as `options.Host` (string) and `options.Port` (int).  Only those
two fields are needed by the claims. -/
structure LlamaServerOptions where
  host : String
  port : Int
  deriving DecidableEq, Repr

/-- Go zero value of `LlamaServerOptions` (as produced by
`&CreateInstanceOptions{}`). -/
def emptyLlamaServerOptions : LlamaServerOptions :=
  { host := "", port := 0 }

/-- `CreateInstanceOptions` from instance.go: the three restart-policy
pointer fields (`nil` = `none`) plus the embedded `LlamaServerOptions`. -/
structure CreateInstanceOptions where
  autoRestart : Option Bool
  maxRestarts : Option Int
  restartDelay : Option Int
  llamaServer : LlamaServerOptions
  deriving DecidableEq, Repr

/-- Modelled from the spec: the `InstancesConfig` struct is declared in a
file outside the sources at hand; `NewInstance` and `createLogFile` read
the fields `LogDirectory`, `DefaultAutoRestart`, `DefaultMaxRestarts` and
`DefaultRestartDelay`, matching the spec's `log_dir`,
`default_auto_restart`, `default_max_restarts`,
`default_restart_delay_seconds` configuration options. -/
structure InstancesConfig where
  logDirectory : String
  defaultAutoRestart : Bool
  defaultMaxRestarts : Int
  defaultRestartDelay : Int
  deriving DecidableEq, Repr

/-- An open log file: its path and the lines/markers written through this
handle since it was opened. -/
structure LogFile where
  path : String
  content : List String
  deriving DecidableEq, Repr

/-- The `Instance` struct of instance.go.  `cmd`, `stdout`, `stderr` are
modelled by presence booleans, the `restartCancel` context-cancel handle by
a boolean (`true` = a pending, not-yet-cancelled restart handle is
installed).  `closedFiles` is a ghost accumulator recording each log file
at the moment `closeLogFile` closed it, so that the shutdown marker can be
observed. -/
structure Instance where
  name : String
  options : Option CreateInstanceOptions
  globalSettings : InstancesConfig
  running : Bool
  logFile : Option LogFile
  closedFiles : List LogFile
  hasCmd : Bool
  stdoutOpen : Bool
  stderrOpen : Bool
  restarts : Nat
  proxy : Option String
  restartCancel : Bool
  deriving DecidableEq, Repr

/-- The startup marker `fmt.Fprintf` writes in `createLogFile`. -/
def startMarker (name ts : String) : String :=
  "\n=== Instance " ++ name ++ " started at " ++ ts ++ " ===\n"

/-- The shutdown marker `fmt.Fprintf` writes in `closeLogFile`. -/
def stopMarker (name ts : String) : String :=
  "=== Instance " ++ name ++ " stopped at " ++ ts ++ " ===\n\n"

/-- `NewInstance`: deep-copies the options, clamping `MaxRestarts` into
[0,100] and `RestartDelay` into [1,300] (values below 1 become 5), then
fills absent restart fields from the global defaults. -/
def NewInstance (name : String) (globalSettings : InstancesConfig)
    (options : Option CreateInstanceOptions) : Instance :=
  let optionsCopy : CreateInstanceOptions :=
    match options with
    | none =>
        { autoRestart := none, maxRestarts := none, restartDelay := none,
          llamaServer := emptyLlamaServerOptions }
    | some o =>
        { autoRestart := o.autoRestart,
          maxRestarts := o.maxRestarts.map (fun maxRestarts =>
            if maxRestarts > 100 then 100
            else if maxRestarts < 0 then 0
            else maxRestarts),
          restartDelay := o.restartDelay.map (fun restartDelay =>
            if restartDelay < 1 then 5
            else if restartDelay > 300 then 300
            else restartDelay),
          llamaServer := o.llamaServer }
  let optionsCopy : CreateInstanceOptions :=
    { optionsCopy with
      autoRestart := some (optionsCopy.autoRestart.getD globalSettings.defaultAutoRestart),
      maxRestarts := some (optionsCopy.maxRestarts.getD globalSettings.defaultMaxRestarts),
      restartDelay := some (optionsCopy.restartDelay.getD globalSettings.defaultRestartDelay) }
  { name := name
    options := some optionsCopy
    globalSettings := globalSettings
    running := false
    logFile := none
    closedFiles := []
    hasCmd := false
    stdoutOpen := false
    stderrOpen := false
    restarts := 0
    proxy := none
    restartCancel := false }

/-- `closeLogFile`: if a log file is open, write the shutdown marker,
close it (recording it in the ghost accumulator) and null the handle. -/
def closeLogFile (ts : String) (i : Instance) : Instance :=
  match i.logFile with
  | none => i
  | some f =>
      { i with
        logFile := none
        closedFiles :=
          i.closedFiles ++ [{ f with content := f.content ++ [stopMarker i.name ts] }] }

/-- `GetOptions`. -/
def GetOptions (i : Instance) : Option CreateInstanceOptions :=
  i.options

/-- `SetOptions`: a nil argument is rejected (warning only); otherwise a
deep copy of the argument is stored verbatim — the comment in the source
defers validation to `UnmarshalJSON` — and the cached proxy is cleared. -/
def SetOptions (i : Instance) (options : Option CreateInstanceOptions) : Instance :=
  match options with
  | none => i
  | some o =>
      let optionsCopy : CreateInstanceOptions :=
        { autoRestart := o.autoRestart
          maxRestarts := o.maxRestarts
          restartDelay := o.restartDelay
          llamaServer := o.llamaServer }
      { i with options := some optionsCopy, proxy := none }

/-- The target URL `GetProxy`'s `fmt.Sprintf` builds from the options. -/
def proxyTarget (o : CreateInstanceOptions) : String :=
  "http://" ++ o.llamaServer.host ++ ":" ++ toString o.llamaServer.port

/-- `GetProxy`: returns the cached reverse proxy, or lazily builds one
whose target is `http://<host>:<port>` from the current options (error if
options are nil).  The proxy is modelled by its target URL string.  The
`Sprintf` result is passed through the external `url.Parse` call, whose
outcome is supplied by the `parseOk` parameter, like the other external
calls of this file: Go's parser accepts the usual host/port combinations
(e.g. `http://127.0.0.1:8080`) but rejects e.g. a negative port (invalid
port after host) or a host containing a space (invalid character in host
name).  On parse failure `GetProxy` returns the wrapped error and caches
nothing, leaving the state unchanged. -/
def GetProxy (parseOk : Bool) (i : Instance) : Instance × Except String String :=
  match i.proxy with
  | some p => (i, Except.ok p)
  | none =>
      match i.options with
      | none => (i, Except.error ("instance " ++ i.name ++ " has no options set"))
      | some o =>
          let target := "http://" ++ o.llamaServer.host ++ ":" ++ toString o.llamaServer.port
          if parseOk = false then
            (i, Except.error ("failed to parse target URL for instance " ++ i.name))
          else
            ({ i with proxy := some target }, Except.ok target)

/-- Outcomes of the external steps `Start` performs: log-file creation,
the two pipe creations, `cmd.Start()`, and the wall-clock timestamp used
for markers. -/
structure StartEnv where
  logOpenOk : Bool
  stdoutPipeOk : Bool
  stderrPipeOk : Bool
  spawnOk : Bool
  ts : String
  deriving DecidableEq, Repr

/-- The error values `Start` and `Stop` can return. -/
inductive StartStopError where
  | alreadyRunning
  | noOptions
  | logFileCreate
  | stdoutPipe
  | stderrPipe
  | spawn
  | notRunning
  deriving DecidableEq, Repr

/-- The log file path `createLogFile` opens. -/
def logFilePath (i : Instance) : String :=
  i.globalSettings.logDirectory ++ "/" ++ i.name ++ ".log"

/-- `Start`: guards (`AlreadyRunning`, `NoOptions`), then `createLogFile`
(inlined: open append-create, write the startup marker), command creation,
the two pipes (each failure closes what was opened so far), `cmd.Start()`
(note: its failure path returns WITHOUT closing the log file or the
pipes), and finally `Running = true`.  Returns the new state, the result,
and whether a child process was spawned. -/
def Start (env : StartEnv) (i : Instance) : Instance × Except StartStopError Unit × Bool :=
  if i.running then (i, Except.error StartStopError.alreadyRunning, false)
  else if i.options.isNone then (i, Except.error StartStopError.noOptions, false)
  else if env.logOpenOk = false then (i, Except.error StartStopError.logFileCreate, false)
  else
    let i1 : Instance :=
      { i with
        logFile := some { path := logFilePath i, content := [startMarker i.name env.ts] }
        hasCmd := true }
    if env.stdoutPipeOk = false then
      (closeLogFile env.ts i1, Except.error StartStopError.stdoutPipe, false)
    else
      let i2 : Instance := { i1 with stdoutOpen := true }
      if env.stderrPipeOk = false then
        (closeLogFile env.ts { i2 with stdoutOpen := false },
          Except.error StartStopError.stderrPipe, false)
      else
        let i3 : Instance := { i2 with stderrOpen := true }
        if env.spawnOk = false then (i3, Except.error StartStopError.spawn, false)
        else ({ i3 with running := true }, Except.ok (), true)

/-- `Stop`: when not running, still cancel any pending restart and return
`NotRunning`; otherwise cancel the pending restart, cancel the context,
clear the cached proxy, wait for the child (timeout/kill modelled away —
it does not change the tracked fields), set `Running = false` and close
the log file with the shutdown marker. -/
def Stop (ts : String) (i : Instance) : Instance × Except StartStopError Unit :=
  if i.running = false then
    ({ i with restartCancel := false }, Except.error StartStopError.notRunning)
  else
    let i1 : Instance := { i with restartCancel := false }
    let i2 : Instance := { i1 with proxy := none }
    let i3 : Instance := { i2 with running := false }
    (closeLogFile ts i3, Except.ok ())

/-- `validateRestartConditions`: returns (shouldRestart, maxRestarts,
restartDelay); fails when options are nil, `AutoRestart` is nil or false,
`MaxRestarts` or `RestartDelay` is nil, or `restarts >= maxRestarts`. -/
def validateRestartConditions (i : Instance) : Bool × Int × Int :=
  match i.options with
  | none => (false, 0, 0)
  | some o =>
      match o.autoRestart with
      | none => (false, 0, 0)
      | some ar =>
          if ar = false then (false, 0, 0)
          else
            match o.maxRestarts with
            | none => (false, 0, 0)
            | some maxRestarts =>
                match o.restartDelay with
                | none => (false, 0, 0)
                | some restartDelay =>
                    if (i.restarts : Int) ≥ maxRestarts then (false, 0, 0)
                    else (true, maxRestarts, restartDelay)

/-- The locked part of `handleRestart`: when the restart conditions hold,
increment `restarts` and install a cancellable restart handle (the delay
timer itself is a separate trace event, `Event.timer`). -/
def handleRestartArm (i : Instance) : Instance :=
  let v := validateRestartConditions i
  if v.1 then { i with restarts := i.restarts + 1, restartCancel := true }
  else i

/-- `monitorProcess` after `cmd.Wait` returns: if `Running` is already
false (operator stop) do nothing; otherwise set `Running = false`, close
the log file, cancel any existing restart handle, and on an error exit run
the locked part of `handleRestart`. -/
def monitorExit (errExit : Bool) (ts : String) (i : Instance) : Instance :=
  if i.running = false then i
  else
    let i1 : Instance := { i with running := false }
    let i2 : Instance := closeLogFile ts i1
    let i3 : Instance := { i2 with restartCancel := false }
    if errExit then handleRestartArm i3 else i3

/-- The delayed tail of `handleRestart`: when the restart-delay timer
fires, if the restart was cancelled do nothing; otherwise call `Start`,
and on success clear the cancel handle (on failure the stale handle is
left in place, as in the source).  Returns the new state and whether a
child was spawned. -/
def timerFire (env : StartEnv) (i : Instance) : Instance × Bool :=
  if i.restartCancel = false then (i, false)
  else
    let r := Start env i
    match r.2.1 with
    | Except.ok _ => ({ r.1 with restartCancel := false }, r.2.2)
    | Except.error _ => (r.1, r.2.2)

/-- The restart-parameter sanitisation of `UnmarshalJSON`: only negative
values are replaced (`MaxRestarts < 0` becomes 0, `RestartDelay < 0`
becomes 5); there is no upper clamp here. -/
def unmarshalSanitizeOptions (o : CreateInstanceOptions) : CreateInstanceOptions :=
  let o1 : CreateInstanceOptions :=
    match o.maxRestarts with
    | some maxRestarts =>
        if maxRestarts < 0 then { o with maxRestarts := some 0 } else o
    | none => o
  match o1.restartDelay with
  | some restartDelay =>
      if restartDelay < 0 then { o1 with restartDelay := some 5 } else o1
  | none => o1

/-- `UnmarshalJSON` after a successful `json.Unmarshal` of the wire record
(name, options, running): sets the fields, sanitising the options when
present (absent options leave the stored options untouched). -/
def unmarshalInto (i : Instance) (name : String) (running : Bool)
    (opts : Option CreateInstanceOptions) : Instance :=
  let i1 : Instance := { i with name := name, running := running }
  match opts with
  | none => i1
  | some o => { i1 with options := some (unmarshalSanitizeOptions o) }

/-- One trailing carriage return is dropped from a scanned line
(`bufio.ScanLines` / `dropCR`). -/
def dropCRChars (cs : List Char) : List Char :=
  match cs.getLast? with
  | some c => if c = '\r' then cs.dropLast else cs
  | none => cs

/-- The token loop of `bufio.Scanner` with `ScanLines`: each newline byte
ends a token (one trailing carriage return dropped); at end of input any
remaining bytes form a final token, and no token is produced for empty
remaining input. -/
def scanLinesAux (cur : List Char) : List Char → List String
  | [] => if cur.isEmpty then [] else [String.mk (dropCRChars cur)]
  | c :: rest =>
      if c = '\n' then String.mk (dropCRChars cur) :: scanLinesAux [] rest
      else scanLinesAux (cur ++ [c]) rest

/-- The lines `bufio.Scanner` (with `ScanLines`) yields on the given
content. -/
def goScanLines (s : String) : List String :=
  scanLinesAux [] s.data

/-- `GetLogs`: error when no log file has been created; otherwise read the
file (its on-disk content is the `content` parameter — `GetLogs` reopens
the file by name, it does not use the live handle) and return the whole
content when `numLines <= 0`, else the last `numLines` scanned lines
joined with newlines (`start := max(len(lines)-num_lines, 0)`). -/
def GetLogs (i : Instance) (content : String) (numLines : Int) :
    Except String String :=
  match i.logFile with
  | none => Except.error ("log file not created for instance " ++ i.name)
  | some _ =>
      if numLines ≤ 0 then Except.ok content
      else
        let lines := goScanLines content
        let start : Int := max ((lines.length : Int) - numLines) 0
        Except.ok (String.intercalate "\n" (lines.drop start.toNat))

/-- Trace events for the supervisor state machine: operator `Start`,
operator `Stop`, the monitor observing a child exit (error or clean), and
the restart-delay timer firing. -/
inductive Event where
  | opStart (env : StartEnv)
  | opStop (ts : String)
  | exit (errExit : Bool) (ts : String)
  | timer (env : StartEnv)
  deriving DecidableEq, Repr

/-- Whether an event is an operator-initiated Start. -/
def Event.isOpStart : Event → Bool
  | Event.opStart _ => true
  | _ => false

/-- One step of the trace semantics; the boolean records whether the step
spawned a child process. -/
def step (i : Instance) (e : Event) : Instance × Bool :=
  match e with
  | Event.opStart env => let r := Start env i; (r.1, r.2.2)
  | Event.opStop ts => ((Stop ts i).1, false)
  | Event.exit errExit ts => (monitorExit errExit ts i, false)
  | Event.timer env => timerFire env i

/-- Run a trace of events; the boolean records whether any step spawned a
child process. -/
def runTrace (i : Instance) : List Event → Instance × Bool
  | [] => (i, false)
  | e :: es =>
      let r := step i e
      let r2 := runTrace r.1 es
      (r2.1, r.2 || r2.2)

/-- The restart-cap invariant: whenever `MaxRestarts` is set,
`restarts ≤ MaxRestarts`. -/
def restartCapB (i : Instance) : Bool :=
  match i.options with
  | none => true
  | some o =>
      match o.maxRestarts with
      | none => true
      | some m => decide ((i.restarts : Int) ≤ m)

/-- The restart cap has been reached: `MaxRestarts` is set and
`restarts ≥ MaxRestarts`. -/
def capReachedB (i : Instance) : Bool :=
  match i.options with
  | none => false
  | some o =>
      match o.maxRestarts with
      | none => false
      | some m => decide ((i.restarts : Int) ≥ m)

/-- Specification-side restart precondition (for comparison with
`validateRestartConditions`): options non-null, `auto_restart` present and
true, `max_restarts` present with `restarts < max_restarts`, and
`restart_delay_seconds` present. -/
def specRestartPrecond (i : Instance) : Bool :=
  match i.options with
  | none => false
  | some o =>
      (o.autoRestart = some true : Bool) &&
      (match o.maxRestarts with
       | some m => decide ((i.restarts : Int) < m)
       | none => false) &&
      o.restartDelay.isSome

/-- The restart precondition exactly as the claim words it: options
non-null, `auto_restart` true, and `restarts < max_restarts` (nothing
about `restart_delay_seconds`). -/
def claimedRestartPrecond (i : Instance) : Bool :=
  match i.options with
  | none => false
  | some o =>
      (o.autoRestart = some true : Bool) &&
      (match o.maxRestarts with
       | some m => decide ((i.restarts : Int) < m)
       | none => false)

/-- Concrete global settings used by the closed-term evaluations. -/
def cfgFix : InstancesConfig :=
  { logDirectory := "/logs", defaultAutoRestart := true,
    defaultMaxRestarts := 3, defaultRestartDelay := 5 }

/-- Concrete backend host/port record for evaluations. -/
def llamaFix : LlamaServerOptions := { host := "127.0.0.1", port := 8080 }

/-- Concrete well-formed options (cap 2, delay 1 s). -/
def optsFix : CreateInstanceOptions :=
  { autoRestart := some true, maxRestarts := some 2, restartDelay := some 1,
    llamaServer := llamaFix }

/-- An environment in which every external step of `Start` succeeds. -/
def envAllOk : StartEnv :=
  { logOpenOk := true, stdoutPipeOk := true, stderrPipeOk := true,
    spawnOk := true, ts := "t0" }

/-- An environment in which `cmd.Start()` fails after both pipes opened. -/
def envSpawnFail : StartEnv := { envAllOk with spawnOk := false }

/-- A freshly created instance. -/
def freshInst : Instance := NewInstance "a" cfgFix (some optsFix)

/-- A running instance that has exhausted its restart cap. -/
def cappedInst : Instance :=
  { freshInst with
    running := true
    hasCmd := true
    stdoutOpen := true
    stderrOpen := true
    restarts := 2 }

/-- A trace with two crash exits, a timer firing and an operator Stop, but
no operator Start. -/
def c1Events : List Event :=
  [Event.exit true "t1", Event.timer envAllOk, Event.opStop "t2",
   Event.exit true "t3"]

/-- A running instance with fresh options. -/
def startedInst : Instance := { freshInst with running := true }

/-- A stopped instance that has already restarted three times. -/
def c2Inst : Instance := { freshInst with restarts := 3 }

/-- Options whose restart fields lie above the documented upper bounds. -/
def c3Opts : CreateInstanceOptions :=
  { autoRestart := some true, maxRestarts := some 200,
    restartDelay := some 500, llamaServer := llamaFix }

/-- Options with auto-restart on and headroom under the cap, but no
`restart_delay_seconds`. -/
def c4Opts : CreateInstanceOptions :=
  { autoRestart := some true, maxRestarts := some 5, restartDelay := none,
    llamaServer := llamaFix }

/-- A running instance carrying `c4Opts`. -/
def c4Inst : Instance :=
  { freshInst with options := some c4Opts, running := true }

/-- A running instance with an open log file, a cached proxy and a pending
restart handle. -/
def runInstFix : Instance :=
  { freshInst with
    running := true
    logFile := some { path := "/logs/a.log", content := ["x"] }
    restartCancel := true
    proxy := some "http://127.0.0.1:8080" }

/-- A stopped instance whose log file exists on disk. -/
def loggedInst : Instance :=
  { freshInst with logFile := some { path := "/logs/a.log", content := [] } }

theorem validate_eq_spec (i : Instance) :
    (validateRestartConditions i).1 = specRestartPrecond i := by
  unfold validateRestartConditions specRestartPrecond
  rcases ho : i.options with _ | o
  · rfl
  · rcases har : o.autoRestart with _ | ar
    · simp [har]
    · rcases hm : o.maxRestarts with _ | m
      · cases ar <;> simp [har, hm]
      · rcases hd : o.restartDelay with _ | d
        · cases ar <;> simp [har, hm, hd]
        · cases ar
          · simp [har, hm, hd]
          · simp only [har, hm, hd]
            rw [if_neg (by decide)]
            by_cases hc : (i.restarts : Int) ≥ m
            · rw [if_pos hc]
              simp
              omega
            · rw [if_neg hc]
              simp
              omega

theorem closeLogFile_options (ts : String) (i : Instance) :
    (closeLogFile ts i).options = i.options := by
  unfold closeLogFile; split <;> rfl

theorem closeLogFile_restarts (ts : String) (i : Instance) :
    (closeLogFile ts i).restarts = i.restarts := by
  unfold closeLogFile; split <;> rfl

theorem closeLogFile_running (ts : String) (i : Instance) :
    (closeLogFile ts i).running = i.running := by
  unfold closeLogFile; split <;> rfl

theorem closeLogFile_restartCancel (ts : String) (i : Instance) :
    (closeLogFile ts i).restartCancel = i.restartCancel := by
  unfold closeLogFile; split <;> rfl

theorem Start_options (env : StartEnv) (i : Instance) :
    ((Start env i).1).options = i.options := by
  unfold Start
  dsimp only
  repeat' split
  all_goals simp [closeLogFile]

theorem Start_restarts (env : StartEnv) (i : Instance) :
    ((Start env i).1).restarts = i.restarts := by
  unfold Start
  dsimp only
  repeat' split
  all_goals simp [closeLogFile]

theorem Start_restartCancel (env : StartEnv) (i : Instance) :
    ((Start env i).1).restartCancel = i.restartCancel := by
  unfold Start
  dsimp only
  repeat' split
  all_goals simp [closeLogFile]

theorem Stop_options (ts : String) (i : Instance) :
    ((Stop ts i).1).options = i.options := by
  unfold Stop
  dsimp only
  repeat' split
  all_goals cases hl : i.logFile <;> simp [closeLogFile, hl]

theorem Stop_restarts (ts : String) (i : Instance) :
    ((Stop ts i).1).restarts = i.restarts := by
  unfold Stop
  dsimp only
  repeat' split
  all_goals cases hl : i.logFile <;> simp [closeLogFile, hl]

theorem Stop_restartCancel (ts : String) (i : Instance) :
    ((Stop ts i).1).restartCancel = false := by
  unfold Stop
  dsimp only
  repeat' split
  all_goals cases hl : i.logFile <;> simp [closeLogFile, hl]

theorem validate_congr (i j : Instance) (ho : j.options = i.options)
    (hr : j.restarts = i.restarts) :
    validateRestartConditions j = validateRestartConditions i := by
  unfold validateRestartConditions
  rw [ho, hr]

theorem restartCapB_congr (i j : Instance) (ho : j.options = i.options)
    (hr : j.restarts = i.restarts) : restartCapB j = restartCapB i := by
  unfold restartCapB
  rw [ho, hr]

theorem capReachedB_congr (i j : Instance) (ho : j.options = i.options)
    (hr : j.restarts = i.restarts) : capReachedB j = capReachedB i := by
  unfold capReachedB
  rw [ho, hr]

theorem validate_true_parts (i : Instance)
    (h : (validateRestartConditions i).1 = true) :
    ∃ o m d, i.options = some o ∧ o.autoRestart = some true ∧
      o.maxRestarts = some m ∧ o.restartDelay = some d ∧
      (i.restarts : Int) < m := by
  unfold validateRestartConditions at h
  split at h
  · simp at h
  · rename_i o ho
    split at h
    · simp at h
    · rename_i ar har
      split at h
      · simp at h
      · rename_i harFalse
        split at h
        · simp at h
        · rename_i m hm
          split at h
          · simp at h
          · rename_i d hd
            split at h
            · simp at h
            · rename_i hge
              have hart : ar = true := by
                cases ar
                · exact absurd rfl harFalse
                · rfl
              exact ⟨o, m, d, ho, hart ▸ har, hm, hd, by omega⟩

theorem capReached_parts (i : Instance) (h : capReachedB i = true) :
    ∃ o m, i.options = some o ∧ o.maxRestarts = some m ∧
      (i.restarts : Int) ≥ m := by
  unfold capReachedB at h
  split at h
  · simp at h
  · rename_i o ho
    split at h
    · simp at h
    · rename_i m hm
      exact ⟨o, m, ho, hm, by simpa using h⟩

theorem restartCapB_of (j : Instance) (o : CreateInstanceOptions) (m : Int)
    (ho : j.options = some o) (hm : o.maxRestarts = some m)
    (hle : (j.restarts : Int) ≤ m) : restartCapB j = true := by
  unfold restartCapB
  rw [ho]
  simpa [hm] using hle

theorem restartCapB_of_fields (i j : Instance) (ho : j.options = i.options)
    (hr : j.restarts = i.restarts) (h : restartCapB i = true) :
    restartCapB j = true := by
  rw [restartCapB_congr i j ho hr]
  exact h

theorem capReachedB_of_fields (i j : Instance) (ho : j.options = i.options)
    (hr : j.restarts = i.restarts) (h : capReachedB i = true) :
    capReachedB j = true := by
  rw [capReachedB_congr i j ho hr]
  exact h

theorem validate_false_of_cap (i : Instance) (h : capReachedB i = true) :
    (validateRestartConditions i).1 = false := by
  by_cases hv : (validateRestartConditions i).1 = true
  · obtain ⟨o, m, d, ho, _har, hm, _hd, hlt⟩ := validate_true_parts i hv
    obtain ⟨o2, m2, ho2, hm2, hge⟩ := capReached_parts i h
    rw [ho] at ho2
    obtain rfl : o = o2 := Option.some.inj ho2
    rw [hm] at hm2
    obtain rfl : m = m2 := Option.some.inj hm2
    omega
  · simpa using hv

theorem handleRestartArm_capB (i : Instance) (h : restartCapB i = true) :
    restartCapB (handleRestartArm i) = true := by
  unfold handleRestartArm
  dsimp only
  by_cases hv : (validateRestartConditions i).1 = true
  · rw [if_pos hv]
    obtain ⟨o, m, _d, ho, _har, hm, _hd, hlt⟩ := validate_true_parts i hv
    exact restartCapB_of _ o m ho hm (by push_cast; omega)
  · rw [if_neg hv]
    exact h

theorem handleRestartArm_blocked (i : Instance) (h : capReachedB i = true) :
    handleRestartArm i = i := by
  unfold handleRestartArm
  dsimp only
  rw [validate_false_of_cap i h]
  simp

theorem monitorExit_not_running (errExit : Bool) (ts : String) (i : Instance)
    (h : i.running = false) : monitorExit errExit ts i = i := by
  unfold monitorExit
  rw [if_pos h]

theorem monitorExit_run (errExit : Bool) (ts : String) (i : Instance)
    (h : i.running = true) :
    monitorExit errExit ts i =
      (if errExit then
        handleRestartArm
          { closeLogFile ts { i with running := false } with restartCancel := false }
       else
        { closeLogFile ts { i with running := false } with restartCancel := false }) := by
  unfold monitorExit
  rw [if_neg (by simp [h])]

theorem monitorExit_capB (errExit : Bool) (ts : String) (i : Instance)
    (h : restartCapB i = true) :
    restartCapB (monitorExit errExit ts i) = true := by
  cases hrun : i.running
  · rw [monitorExit_not_running _ _ _ hrun]
    exact h
  · rw [monitorExit_run errExit ts i hrun]
    have hbase :
        restartCapB
          { closeLogFile ts { i with running := false } with restartCancel := false } = true :=
      restartCapB_of_fields i _
        (by cases hl : i.logFile <;> simp [closeLogFile, hl])
        (by cases hl : i.logFile <;> simp [closeLogFile, hl]) h
    cases errExit
    · rw [if_neg (by decide)]
      exact hbase
    · rw [if_pos rfl]
      exact handleRestartArm_capB _ hbase

theorem monitorExit_blocked (errExit : Bool) (ts : String) (i : Instance)
    (hc : capReachedB i = true) (hp : i.restartCancel = false) :
    capReachedB (monitorExit errExit ts i) = true ∧
    (monitorExit errExit ts i).restartCancel = false ∧
    (monitorExit errExit ts i).restarts = i.restarts := by
  cases hrun : i.running
  · rw [monitorExit_not_running _ _ _ hrun]
    exact ⟨hc, hp, rfl⟩
  · rw [monitorExit_run errExit ts i hrun]
    have hres :
        ({ closeLogFile ts { i with running := false } with
            restartCancel := false }).restarts = i.restarts := by
      cases hl : i.logFile <;> simp [closeLogFile, hl]
    have hcap :
        capReachedB
          { closeLogFile ts { i with running := false } with restartCancel := false } = true :=
      capReachedB_of_fields i _
        (by cases hl : i.logFile <;> simp [closeLogFile, hl]) hres hc
    cases errExit
    · rw [if_neg (by decide)]
      exact ⟨hcap, rfl, hres⟩
    · rw [if_pos rfl]
      rw [handleRestartArm_blocked _ hcap]
      exact ⟨hcap, rfl, hres⟩

theorem timerFire_cancelled (env : StartEnv) (i : Instance)
    (h : i.restartCancel = false) : timerFire env i = (i, false) := by
  unfold timerFire
  rw [if_pos h]

theorem timerFire_capB (env : StartEnv) (i : Instance)
    (h : restartCapB i = true) :
    restartCapB (timerFire env i).1 = true := by
  unfold timerFire
  dsimp only
  split
  · exact h
  · split
    · exact restartCapB_of_fields i _
        (by simp [Start_options]) (by simp [Start_restarts]) h
    · exact restartCapB_of_fields i _
        (by simp [Start_options]) (by simp [Start_restarts]) h

theorem step_capB (i : Instance) (e : Event) (h : restartCapB i = true) :
    restartCapB (step i e).1 = true := by
  cases e with
  | opStart env =>
      have hp := restartCapB_of_fields i (Start env i).1
        (Start_options env i) (Start_restarts env i) h
      simpa [step] using hp
  | opStop ts =>
      have hp := restartCapB_of_fields i (Stop ts i).1
        (Stop_options ts i) (Stop_restarts ts i) h
      simpa [step] using hp
  | exit errExit ts => simpa [step] using monitorExit_capB errExit ts i h
  | timer env => simpa [step] using timerFire_capB env i h

theorem step_blocked (i : Instance) (e : Event)
    (hc : capReachedB i = true) (hp : i.restartCancel = false)
    (hne : e.isOpStart = false) :
    (step i e).2 = false ∧ capReachedB (step i e).1 = true ∧
    (step i e).1.restartCancel = false := by
  cases e with
  | opStart env => simp [Event.isOpStart] at hne
  | opStop ts =>
      refine ⟨rfl, ?_, ?_⟩
      · have hq := capReachedB_of_fields i (Stop ts i).1
          (Stop_options ts i) (Stop_restarts ts i) hc
        simpa [step] using hq
      · simpa [step] using Stop_restartCancel ts i
  | exit errExit ts =>
      obtain ⟨h1, h2, _h3⟩ := monitorExit_blocked errExit ts i hc hp
      exact ⟨rfl, by simpa [step] using h1, by simpa [step] using h2⟩
  | timer env =>
      have ht : step i (Event.timer env) = (i, false) := by
        simpa [step] using timerFire_cancelled env i hp
      rw [ht]
      exact ⟨rfl, hc, hp⟩

/-- Claim C1: over every trace of operator Start/Stop operations, monitored
child exits and restart-timer firings, the restart counter stays at most
`MaxRestarts` (whenever that field is set and the invariant held
initially); and once the cap has been reached (with no restart already
pending), a trace containing no operator-initiated Start never spawns a
child process. -/
theorem restarts_never_exceed_max (i : Instance) (es : List Event)
    (hInv : restartCapB i = true) :
    restartCapB (runTrace i es).1 = true ∧
    (capReachedB i = true → i.restartCancel = false →
      es.all (fun e => !e.isOpStart) = true →
      (runTrace i es).2 = false) := by
  induction es generalizing i with
  | nil => exact ⟨hInv, fun _ _ _ => rfl⟩
  | cons e es ih =>
      have h1 := step_capB i e hInv
      constructor
      · have h2 := (ih (step i e).1 h1).1
        simpa [runTrace] using h2
      · intro hcap hpend hall
        rw [List.all_cons, Bool.and_eq_true] at hall
        obtain ⟨hne, hall2⟩ := hall
        rw [Bool.not_eq_true'] at hne
        obtain ⟨hsp, hcap2, hpend2⟩ := step_blocked i e hcap hpend hne
        have hrest := (ih (step i e).1 h1).2 hcap2 hpend2 hall2
        simp [runTrace, hsp, hrest]

theorem Stop_not_running_eq (ts : String) (i : Instance)
    (h : i.running = false) :
    Stop ts i = ({ i with restartCancel := false },
      Except.error StartStopError.notRunning) := by
  unfold Stop
  rw [if_pos h]

theorem Stop_run_parts (ts : String) (i : Instance) (h : i.running = true) :
    (Stop ts i).2 = Except.ok () ∧
    ((Stop ts i).1).proxy = none ∧
    ((Stop ts i).1).running = false ∧
    ((Stop ts i).1).logFile = none ∧
    (∀ f, i.logFile = some f →
      ((Stop ts i).1).closedFiles =
        i.closedFiles ++ [{ f with content := f.content ++ [stopMarker i.name ts] }]) ∧
    (i.logFile = none → ((Stop ts i).1).closedFiles = i.closedFiles) := by
  unfold Stop
  rw [if_neg (by simp [h])]
  refine ⟨rfl, ?_, ?_, ?_, ?_, ?_⟩
  · cases hl : i.logFile <;> simp [closeLogFile, hl]
  · cases hl : i.logFile <;> simp [closeLogFile, hl]
  · cases hl : i.logFile <;> simp [closeLogFile, hl]
  · intro f hf
    simp [closeLogFile, hf]
  · intro hf
    simp [closeLogFile, hf]

/-- Claim C1 witness: a concrete capped instance and a concrete
Start-free trace on which the invariant evaluates to true and the trace
spawns nothing. -/
theorem restarts_never_exceed_max_witness :
    restartCapB cappedInst = true ∧ capReachedB cappedInst = true ∧
    cappedInst.restartCancel = false ∧
    c1Events.all (fun e => !e.isOpStart) = true ∧
    restartCapB (runTrace cappedInst c1Events).1 = true ∧
    (runTrace cappedInst c1Events).2 = false := by
  have h := restarts_never_exceed_max cappedInst c1Events (by decide)
  exact ⟨by decide, by decide, by decide, by decide, h.1,
    h.2 (by decide) (by decide) (by decide)⟩

/-- Claim C2 counterexample: a successful operator Start on an instance
with `restarts = 3` leaves the counter at 3, not 0. -/
theorem start_no_reset_counterexample :
    (Start envAllOk c2Inst).2.1 = Except.ok () ∧
    ((Start envAllOk c2Inst).1).restarts = 3 ∧
    ¬ ((Start envAllOk c2Inst).1).restarts = 0 :=
  ⟨rfl, rfl, by decide⟩

/-- Claim C2 (amended): a successful operator-initiated Start leaves the
`restarts` counter unchanged (nothing in the code ever resets it), so
`restarts` counts all automatic restarts since the instance was created. -/
theorem start_preserves_restarts (env : StartEnv) (i : Instance) :
    ((Start env i).1).restarts = i.restarts :=
  Start_restarts env i

/-- Claim C3 counterexample: `SetOptions` stores `max_restarts = 200` and
`restart_delay_seconds = 500` verbatim, outside [0,100] and [1,300]. -/
theorem set_options_no_clamp_counterexample :
    (SetOptions (NewInstance "a" cfgFix none) (some c3Opts)).options = some c3Opts ∧
    c3Opts.maxRestarts = some 200 ∧ ¬ ((200 : Int) ≤ 100) ∧
    c3Opts.restartDelay = some 500 ∧ ¬ ((500 : Int) ≤ 300) :=
  ⟨rfl, rfl, by decide, rfl, by decide⟩

/-- Claim C3 (amended): `SetOptions` stores a deep copy of non-nil options
with the restart-policy fields unchanged (no clamping) and clears the
cached proxy; `UnmarshalJSON` sanitises only negative values
(`max_restarts < 0` becomes 0, `restart_delay_seconds < 0` becomes 5), so
after either call the stored fields may lie outside [0,100] and [1,300]
(full clamping happens only in `NewInstance`). -/
theorem set_options_stores_verbatim (i : Instance) (o : CreateInstanceOptions) :
    (SetOptions i (some o)).options = some o ∧
    (SetOptions i (some o)).proxy = none ∧
    unmarshalSanitizeOptions o =
      { o with
        maxRestarts := o.maxRestarts.map (fun m => if m < 0 then 0 else m)
        restartDelay := o.restartDelay.map (fun d => if d < 0 then 5 else d) } := by
  refine ⟨rfl, rfl, ?_⟩
  obtain ⟨ar, mr, rd, ls⟩ := o
  rcases mr with _ | m <;> rcases rd with _ | d <;>
    simp [unmarshalSanitizeOptions] <;> split_ifs <;> simp <;> omega

/-- Claim C5: evaluation of the divergence — when `cmd.Start()` fails
after both pipes were created, `Start` returns the wrapped spawn error
with `running` still false and no spawn, but it does NOT close the log
file or the pipes (the log-file handle is still open and both pipe flags
still set), contradicting the documented cleanup. -/
theorem start_spawn_failure_leaves_resources_open :
    (Start envSpawnFail freshInst).2.1 = Except.error StartStopError.spawn ∧
    ¬ ((Start envSpawnFail freshInst).1).logFile = none ∧
    ((Start envSpawnFail freshInst).1).stdoutOpen = true ∧
    ((Start envSpawnFail freshInst).1).stderrOpen = true ∧
    ((Start envSpawnFail freshInst).1).running = false ∧
    (Start envSpawnFail freshInst).2.2 = false :=
  ⟨rfl, by decide, rfl, rfl, rfl, rfl⟩

/-- Claim C10: `SetOptions` with a nil argument is a no-op on the whole
instance state — stored options and cached proxy included. -/
theorem set_options_nil_noop (i : Instance) : SetOptions i none = i := rfl

/-- Claim C4 counterexample: a running instance whose options have
`auto_restart = true`, `max_restarts = 5 > restarts = 0` but a nil
`restart_delay_seconds` satisfies the claim's restart precondition, yet
the monitor schedules no restart on an error exit (the counter stays 0 and
no restart handle is installed). -/
theorem monitor_restart_missing_delay_counterexample :
    c4Inst.running = true ∧
    claimedRestartPrecond c4Inst = true ∧
    (monitorExit true "t1" c4Inst).restartCancel = false ∧
    (monitorExit true "t1" c4Inst).restarts = c4Inst.restarts := by
  decide

/-- Claim C4 (amended): on a child exit observed with the instance still
marked running, a restart is scheduled (restart handle installed and
`restarts` incremented) if and only if the exit was an error AND options
are non-null with `auto_restart` present and true, `max_restarts` present
with `restarts < max_restarts`, and `restart_delay_seconds` present;
otherwise (clean exit included) nothing is scheduled and `restarts` is
unchanged. -/
theorem monitor_restart_iff (i : Instance) (errExit : Bool) (ts : String)
    (h : i.running = true) :
    ((monitorExit errExit ts i).restartCancel = true ↔
      (errExit = true ∧ specRestartPrecond i = true)) ∧
    ((monitorExit errExit ts i).restarts =
      if errExit = true ∧ specRestartPrecond i = true then i.restarts + 1
      else i.restarts) := by
  rw [monitorExit_run errExit ts i h]
  have hopts :
      ({ closeLogFile ts { i with running := false } with
          restartCancel := false }).options = i.options := by
    cases hl : i.logFile <;> simp [closeLogFile, hl]
  have hres :
      ({ closeLogFile ts { i with running := false } with
          restartCancel := false }).restarts = i.restarts := by
    cases hl : i.logFile <;> simp [closeLogFile, hl]
  have hval :
      (validateRestartConditions
        { closeLogFile ts { i with running := false } with
          restartCancel := false }).1 = specRestartPrecond i := by
    rw [validate_congr i _ hopts hres, validate_eq_spec]
  cases errExit
  · rw [if_neg (by decide)]
    constructor
    · simp
    · rw [if_neg (by simp)]
      exact hres
  · rw [if_pos rfl]
    unfold handleRestartArm
    dsimp only
    by_cases hv : specRestartPrecond i = true
    · rw [if_pos (by rw [hval]; exact hv)]
      constructor
      · simp [hv]
      · rw [if_pos ⟨rfl, hv⟩]
        simp
        cases hl : i.logFile <;> simp [closeLogFile, hl]
    · rw [if_neg (by rw [hval]; exact hv)]
      constructor
      · simp [hv]
      · rw [if_neg (by simp [hv])]
        exact hres

/-- Claim C4 witness: on a concrete running instance with complete restart
options and headroom, an error exit schedules a restart and increments the
counter. -/
theorem monitor_restart_iff_witness :
    (monitorExit true "t1" startedInst).restartCancel = true ∧
    (monitorExit true "t1" startedInst).restarts = startedInst.restarts + 1 := by
  have h := monitor_restart_iff startedInst true "t1" rfl
  refine ⟨h.1.mpr ⟨rfl, by decide⟩, ?_⟩
  rw [h.2, if_pos ⟨rfl, by decide⟩]

/-- Claim C6: `Stop` on a non-running instance still cancels any pending
restart handle and returns `NotRunning`, leaving every other field
unchanged; `Stop` on a running instance returns success, clears the cached
proxy, sets `running` to false and closes the log file, appending the
shutdown marker. -/
theorem stop_behavior (i : Instance) (ts : String) :
    (i.running = false →
      Stop ts i = ({ i with restartCancel := false },
        Except.error StartStopError.notRunning)) ∧
    (i.running = true →
      (Stop ts i).2 = Except.ok () ∧
      ((Stop ts i).1).proxy = none ∧
      ((Stop ts i).1).running = false ∧
      ((Stop ts i).1).logFile = none ∧
      (∀ f, i.logFile = some f →
        ((Stop ts i).1).closedFiles =
          i.closedFiles ++
            [{ f with content := f.content ++ [stopMarker i.name ts] }])) := by
  constructor
  · exact Stop_not_running_eq ts i
  · intro h
    obtain ⟨h1, h2, h3, h4, h5, _h6⟩ := Stop_run_parts ts i h
    exact ⟨h1, h2, h3, h4, h5⟩

/-- Claim C6 witness: both branches evaluated on concrete instances. -/
theorem stop_behavior_witness :
    (Stop "t9" runInstFix).2 = Except.ok () ∧
    ((Stop "t9" runInstFix).1).proxy = none ∧
    ((Stop "t9" runInstFix).1).running = false ∧
    ((Stop "t9" runInstFix).1).logFile = none ∧
    ((Stop "t9" runInstFix).1).closedFiles =
      runInstFix.closedFiles ++
        [{ path := "/logs/a.log", content := ["x", stopMarker "a" "t9"] }] ∧
    Stop "t8" freshInst =
      ({ freshInst with restartCancel := false },
        Except.error StartStopError.notRunning) := by
  obtain ⟨h1, h2, h3, h4, h5⟩ := (stop_behavior runInstFix "t9").2 rfl
  have h6 := (stop_behavior freshInst "t8").1 rfl
  exact ⟨h1, h2, h3, h4,
    h5 { path := "/logs/a.log", content := ["x"] } rfl, h6⟩

/-- Claim C7: a `Stop` that returns success cancels any pending restart
handle without touching `restarts`, leaves `running` false, and afterwards
the monitor (seeing `running` false) exits without any state change while
a firing restart timer does nothing and spawns nothing. -/
theorem stop_success_no_restart (i : Instance) (ts : String)
    (h : i.running = true) :
    (Stop ts i).2 = Except.ok () ∧
    ((Stop ts i).1).restartCancel = false ∧
    ((Stop ts i).1).restarts = i.restarts ∧
    ((Stop ts i).1).running = false ∧
    (∀ errExit ts2, monitorExit errExit ts2 ((Stop ts i).1) = (Stop ts i).1) ∧
    (∀ env, timerFire env ((Stop ts i).1) = ((Stop ts i).1, false)) := by
  obtain ⟨h1, _h2, h3, _h4, _h5, _h6⟩ := Stop_run_parts ts i h
  refine ⟨h1, Stop_restartCancel ts i, Stop_restarts ts i, h3, ?_, ?_⟩
  · intro errExit ts2
    exact monitorExit_not_running errExit ts2 _ h3
  · intro env
    exact timerFire_cancelled env _ (Stop_restartCancel ts i)

/-- Claim C7 witness: evaluated on a running instance with a pending
restart handle. -/
theorem stop_success_no_restart_witness :
    (Stop "t9" runInstFix).2 = Except.ok () ∧
    ((Stop "t9" runInstFix).1).restartCancel = false ∧
    ((Stop "t9" runInstFix).1).restarts = runInstFix.restarts ∧
    monitorExit true "ta" ((Stop "t9" runInstFix).1) = (Stop "t9" runInstFix).1 ∧
    timerFire envAllOk ((Stop "t9" runInstFix).1) =
      ((Stop "t9" runInstFix).1, false) := by
  obtain ⟨h1, h2, h3, _h4, h5, h6⟩ := stop_success_no_restart runInstFix "t9" rfl
  exact ⟨h1, h2, h3, h5 true "ta", h6 envAllOk⟩

/-- Claim C8: `GetProxy` returns the cached proxy when present; otherwise
it fails when options are nil; when the external `url.Parse` of the
Sprintf result fails (e.g. negative port or a host with a space) it
returns the wrapped error and caches nothing; when the parse succeeds it
builds and caches a proxy targeting exactly
`http://options.host:options.port`; `SetOptions` clears the cache, so a
`GetProxy` after `SetOptions` rebinds to the host:port of the new
options. -/
theorem proxy_target_matches_options (i : Instance)
    (o : CreateInstanceOptions) (p : String) (parseOk : Bool) :
    (i.proxy = some p → GetProxy parseOk i = (i, Except.ok p)) ∧
    (i.proxy = none → i.options = none →
      (GetProxy parseOk i).2 =
        Except.error ("instance " ++ i.name ++ " has no options set")) ∧
    (i.proxy = none → i.options = some o → parseOk = false →
      GetProxy parseOk i =
        (i, Except.error ("failed to parse target URL for instance " ++ i.name))) ∧
    (i.proxy = none → i.options = some o → parseOk = true →
      GetProxy parseOk i =
        ({ i with proxy := some (proxyTarget o) }, Except.ok (proxyTarget o))) ∧
    (SetOptions i (some o)).proxy = none ∧
    (GetProxy true (SetOptions i (some o))).2 = Except.ok (proxyTarget o) := by
  refine ⟨?_, ?_, ?_, ?_, rfl, rfl⟩
  · intro hp
    unfold GetProxy
    rw [hp]
  · intro hp ho
    unfold GetProxy
    rw [hp, ho]
  · intro hp ho hpar
    unfold GetProxy
    rw [hp, ho, hpar]
    rfl
  · intro hp ho hpar
    unfold GetProxy
    rw [hp, ho, hpar]
    rfl

/-- Claim C8 witness: on a fresh instance a successful parse binds the
proxy to `http://127.0.0.1:8080` and caches it, a failed parse returns
the wrapped error leaving the state unchanged, and after `SetOptions` the
rebuilt proxy again matches the options. -/
theorem proxy_target_matches_options_witness :
    (GetProxy true freshInst).2 = Except.ok "http://127.0.0.1:8080" ∧
    ((GetProxy true freshInst).1).proxy = some "http://127.0.0.1:8080" ∧
    GetProxy false freshInst =
      (freshInst, Except.error "failed to parse target URL for instance a") ∧
    (GetProxy true (SetOptions freshInst (some optsFix))).2 =
      Except.ok "http://127.0.0.1:8080" := by
  have h := proxy_target_matches_options freshInst optsFix "q" true
  have hf := proxy_target_matches_options freshInst optsFix "q" false
  have h3 := h.2.2.2.1 rfl rfl rfl
  have h4 := hf.2.2.1 rfl rfl rfl
  have hps : proxyTarget optsFix = "http://127.0.0.1:8080" := by decide
  refine ⟨?_, ?_, ?_, ?_⟩
  · rw [h3, hps]
  · rw [h3, hps]
  · rw [h4]
    rfl
  · rw [h.2.2.2.2.2, hps]

/-- Claim C9: with a known log file, `GetLogs` returns the whole file
content when `n ≤ 0`, and for `n > 0` returns the last `n` scanned lines
joined by newlines (all lines when the file has at most `n` lines; the
returned slice has length `min n (number of lines)`). -/
theorem get_logs_spec (i : Instance) (f : LogFile) (content : String)
    (n : Int) (hf : i.logFile = some f) :
    (n ≤ 0 → GetLogs i content n = Except.ok content) ∧
    (0 < n →
      GetLogs i content n =
        Except.ok (String.intercalate "\n"
          ((goScanLines content).drop
            ((goScanLines content).length - n.toNat))) ∧
      ((goScanLines content).drop
          ((goScanLines content).length - n.toNat)).length =
        min n.toNat (goScanLines content).length ∧
      (((goScanLines content).length : Int) ≤ n →
        GetLogs i content n =
          Except.ok (String.intercalate "\n" (goScanLines content)))) := by
  constructor
  · intro hn
    simp only [GetLogs, hf]
    rw [if_pos hn]
  · intro hn
    have hneg : ¬ n ≤ 0 := by omega
    have hstart : (max (((goScanLines content).length : Int) - n) 0).toNat =
        (goScanLines content).length - n.toNat := by omega
    refine ⟨?_, ?_, ?_⟩
    · simp only [GetLogs, hf]
      rw [if_neg hneg]
      rw [hstart]
    · rw [List.length_drop]
      omega
    · intro hle
      have h0 : (goScanLines content).length - n.toNat = 0 := by omega
      simp only [GetLogs, hf]
      rw [if_neg hneg]
      rw [hstart, h0, List.drop_zero]

/-- Claim C9 witness: a three-line file, read whole with `n = -1` and as
its last two lines with `n = 2`. -/
theorem get_logs_spec_witness :
    GetLogs loggedInst "a\nb\nc" (-1) = Except.ok "a\nb\nc" ∧
    GetLogs loggedInst "a\nb\nc" 2 = Except.ok "b\nc" := by
  have h1 := get_logs_spec loggedInst
    { path := "/logs/a.log", content := [] } "a\nb\nc" (-1) rfl
  have h2 := get_logs_spec loggedInst
    { path := "/logs/a.log", content := [] } "a\nb\nc" 2 rfl
  refine ⟨h1.1 (by decide), ?_⟩
  have h3 := (h2.2 (by decide)).1
  exact h3.trans (by rfl)

end Llamactl
